import Mathlib

/-!
Shallow embedding of the mutation-testing subsystem of the `dslviem`
repository (src/src/testing/mutation/{base,operators,registry,runner}.ts and
the primitive type descriptors of src/src/types).

Modelling conventions:
* JavaScript runtime values are embedded as the inductive `Value`:
  `str` for strings, `int` for bigints, `num` for numbers (JS numbers are
  floats; they are modelled as integers, which agrees with JS arithmetic on
  the safe-integer inputs exercised here), `bool`, `arr` for arrays and
  `null`.
* A TypeScript function that can throw returns `Except String α`, the
  error message standing for the thrown `Error`'s message.
* Operator `mutate` functions are fallible (`Value → Except String (List Value)`)
  because a caller-registered operator is an arbitrary JS function and may
  throw; the built-in operators below only return `Except.ok`, except on
  arguments where the TS body would raise a `TypeError` (e.g. calling a
  string method on a non-string), where they return `Except.error`.
* An asynchronous validator is modelled by its eventual outcome together
  with the instant at which its promise settles (`none` = never settles).
  `Promise.race` against `setTimeout(…, t)` yields the validator's outcome
  iff it settles strictly before the timer, and a `"Timeout"` rejection
  otherwise.
-/

/-- A JavaScript runtime value, as far as the mutation subsystem observes it. -/
inductive Value where
  | str : String → Value
  | int : Int → Value
  | num : Int → Value
  | bool : Bool → Value
  | arr : List Value → Value
  | null : Value

mutual

/-- JS strict equality `===` restricted to the values above (same type and
same content; arrays are compared structurally here, which is only used by
`BlockTagMutator` where both sides are strings). -/
def valueEq : Value → Value → Bool
  | Value.str a, Value.str b => a == b
  | Value.int a, Value.int b => a == b
  | Value.num a, Value.num b => a == b
  | Value.bool a, Value.bool b => a == b
  | Value.null, Value.null => true
  | Value.arr a, Value.arr b => valueListEq a b
  | _, _ => false

def valueListEq : List Value → List Value → Bool
  | [], [] => true
  | a :: as, b :: bs => valueEq a b && valueListEq as bs
  | _, _ => false

end

/-- JS truthiness, used by `BooleanMutator`'s `!value`. -/
def jsTruthy : Value → Bool
  | Value.str s => s ≠ ""
  | Value.int n => n ≠ 0
  | Value.num n => n ≠ 0
  | Value.bool b => b
  | Value.arr _ => true
  | Value.null => false

mutual

/-- JS template-literal stringification `${value}` (arrays join their
elements with commas, `null` elements rendering as the empty string). -/
def valueToString : Value → String
  | Value.null => "null"
  | Value.str s => s
  | Value.int n => toString n
  | Value.num n => toString n
  | Value.bool b => cond b "true" "false"
  | Value.arr l => valueListToString l

def valueListToString : List Value → String
  | [] => ""
  | [Value.null] => ""
  | [v] => valueToString v
  | Value.null :: rest => "," ++ valueListToString rest
  | v :: rest => valueToString v ++ "," ++ valueListToString rest

end

/-- The `BaseType` interface of src/src/types/base.ts: a named type
descriptor with a membership predicate.  (The interface's `mutable` and
`unrollValue` members are not consumed anywhere in the mutation subsystem
and are omitted.) -/
structure BaseType where
  name : String
  isValid : Value → Bool

/-- Hex digit test, embedding the character class of viem's address/hex
regular expressions. -/
def isHexDigitChar (c : Char) : Bool :=
  c.isDigit || ('a' ≤ c && c ≤ 'f') || ('A' ≤ c && c ≤ 'F')

/-- A `0x`-prefixed string of hex digits (viem's `isHex`). -/
def isHexString (s : String) : Bool :=
  s.startsWith "0x" && (s.drop 2).all isHexDigitChar

/-- Embeds `TAddress.isValid` (src/src/types/primitive.ts): viem's `isAddress`,
modelled as `0x` followed by exactly 40 hex digits. -/
def TAddress : BaseType :=
  { name := "Address"
  , isValid := fun v =>
      match v with
      | Value.str s => s.length == 42 && isHexString s
      | _ => false }

/-- The five block-tag enum members, in source order. -/
def allTags : List String := ["latest", "earliest", "pending", "safe", "finalized"]

/-- Embeds `TBlockTag.isValid`: a string that is one of the five tags. -/
def TBlockTag : BaseType :=
  { name := "BlockTag"
  , isValid := fun v =>
      match v with
      | Value.str s => allTags.contains s
      | _ => false }

/-- Embeds `TBlockNumber.isValid`: a non-negative bigint. -/
def TBlockNumber : BaseType :=
  { name := "BlockNumber"
  , isValid := fun v =>
      match v with
      | Value.int n => decide (0 ≤ n)
      | _ => false }

/-- Embeds `THex32.isValid`: a hex string of total length 66 (`0x` + 64 digits). -/
def THex32 : BaseType :=
  { name := "Hex32"
  , isValid := fun v =>
      match v with
      | Value.str s => isHexString s && s.length == 66
      | _ => false }

/-- The inline type literal of `BooleanMutator` (src/src/testing/mutation/operators.ts). -/
def boolType : BaseType :=
  { name := "Boolean"
  , isValid := fun v => match v with | Value.bool _ => true | _ => false }

/-- The inline type literal of `NumberMutator`. -/
def numberType : BaseType :=
  { name := "Number"
  , isValid := fun v => match v with | Value.num _ => true | _ => false }

/-- The inline type literal of `StringMutator`. -/
def stringType : BaseType :=
  { name := "String"
  , isValid := fun v => match v with | Value.str _ => true | _ => false }

/-- The inline type literal of `ArrayMutator`. -/
def arrayType : BaseType :=
  { name := "Array"
  , isValid := fun v => match v with | Value.arr _ => true | _ => false }

/-- Body of `AddressMutator.mutate` on its string argument. -/
def addressMutateList (address : String) : List String :=
  [ address.toLower
  , (address.take 41).push '0'
  , "0X" ++ address.drop 2
  , "0x0000000000000000000000000000000000000000"
  , address.take 10 ++ "X" ++ address.drop 11 ]

/-- Body of `BlockTagMutator.mutate`: every tag strictly unequal to the seed. -/
def blockTagMutateList (blockTag : Value) : List String :=
  allTags.filter (fun tag => !(valueEq (Value.str tag) blockTag))

/-- Body of `BlockNumberMutator.mutate`. -/
def blockNumberMutateList (blockNumber : Int) : List Int :=
  [0, 1, blockNumber + 1, blockNumber - 1, 2 ^ 64 - 1, -1]

/-- Body of `HashMutator.mutate`. -/
def hashMutateList (hash : String) : List String :=
  [ hash.take 10 ++ "X" ++ hash.drop 11
  , "0X" ++ hash.drop 2
  , "0x0000000000000000000000000000000000000000000000000000000000000000"
  , hash.take 65
  , hash.push '0' ]

/-- Body of `NumberMutator.mutate`; `Math.floor(value / 2)` is floor
division, and the safe-integer bounds are `±(2^53 - 1)`. -/
def numberMutateList (value : Int) : List Int :=
  [0, value + 1, value - 1, -value, value * 2, Int.fdiv value 2, 2 ^ 53 - 1, -(2 ^ 53 - 1)]

/-- JS `value.split('').reverse().join('')`. -/
def strReverse (s : String) : String := String.mk s.data.reverse

/-- Body of `StringMutator.mutate`; `substring(0, length - 1)` on the empty
string clamps to the empty string. -/
def stringMutateList (value : String) : List String :=
  [ "", value.push 'X', value.take (value.length - 1), value.toUpper, value.toLower, strReverse value ]

/-- Body of `ArrayMutator.mutate`: the empty seed gets a single
null-placeholder singleton, a non-empty seed its six variants. -/
def arrayMutateList (value : List Value) : List (List Value) :=
  match value with
  | [] => [[Value.null]]
  | x :: rest =>
    [ [], rest, (x :: rest).dropLast, (x :: rest) ++ [x], (x :: rest).reverse, [x] ]

/-- The `TypedMutationOperator` interface: a named operator bound to a type
descriptor, with an applicability test and a (possibly throwing) `mutate`. -/
structure TypedMutationOperator where
  name : String
  type : BaseType
  isApplicable : Value → Bool
  mutate : Value → Except String (List Value)

/-- Embeds `AddressMutator`; `isApplicable` delegates to the bound type's
`isValid` (the `BaseTypedMutationOperator` default).  Calling the TS
`mutate` on a non-string would raise a `TypeError`. -/
def AddressMutator : TypedMutationOperator :=
  { name := "AddressMutator"
  , type := TAddress
  , isApplicable := TAddress.isValid
  , mutate := fun v =>
      match v with
      | Value.str s => Except.ok ((addressMutateList s).map Value.str)
      | _ => Except.error "TypeError" }

/-- Embeds `BlockTagMutator`; its body (a filter with `!==`) is total on all values. -/
def BlockTagMutator : TypedMutationOperator :=
  { name := "BlockTagMutator"
  , type := TBlockTag
  , isApplicable := TBlockTag.isValid
  , mutate := fun v => Except.ok ((blockTagMutateList v).map Value.str) }

/-- Embeds `BlockNumberMutator`; bigint arithmetic on a non-bigint raises. -/
def BlockNumberMutator : TypedMutationOperator :=
  { name := "BlockNumberMutator"
  , type := TBlockNumber
  , isApplicable := TBlockNumber.isValid
  , mutate := fun v =>
      match v with
      | Value.int n => Except.ok ((blockNumberMutateList n).map Value.int)
      | _ => Except.error "TypeError" }

/-- Embeds `HashMutator`. -/
def HashMutator : TypedMutationOperator :=
  { name := "HashMutator"
  , type := THex32
  , isApplicable := THex32.isValid
  , mutate := fun v =>
      match v with
      | Value.str s => Except.ok ((hashMutateList s).map Value.str)
      | _ => Except.error "TypeError" }

/-- Embeds `BooleanMutator`; `!value` applies JS truthiness, so the body is total. -/
def BooleanMutator : TypedMutationOperator :=
  { name := "BooleanMutator"
  , type := boolType
  , isApplicable := boolType.isValid
  , mutate := fun v => Except.ok [Value.bool (! jsTruthy v)] }

/-- Embeds `NumberMutator`. -/
def NumberMutator : TypedMutationOperator :=
  { name := "NumberMutator"
  , type := numberType
  , isApplicable := numberType.isValid
  , mutate := fun v =>
      match v with
      | Value.num n => Except.ok ((numberMutateList n).map Value.num)
      | _ => Except.error "TypeError" }

/-- Embeds `StringMutator`. -/
def StringMutator : TypedMutationOperator :=
  { name := "StringMutator"
  , type := stringType
  , isApplicable := stringType.isValid
  , mutate := fun v =>
      match v with
      | Value.str s => Except.ok ((stringMutateList s).map Value.str)
      | _ => Except.error "TypeError" }

/-- Embeds `ArrayMutator`. -/
def ArrayMutator : TypedMutationOperator :=
  { name := "ArrayMutator"
  , type := arrayType
  , isApplicable := arrayType.isValid
  , mutate := fun v =>
      match v with
      | Value.arr l => Except.ok ((arrayMutateList l).map Value.arr)
      | _ => Except.error "TypeError" }

/-- Embeds `Map.set` on a string-keyed association list: overwrite in place if the
key is present, append otherwise (insertion order preserved). -/
def setKey : List (String × TypedMutationOperator) → String → TypedMutationOperator →
    List (String × TypedMutationOperator)
  | [], k, op => [(k, op)]
  | (k', op') :: rest, k, op =>
      if k' == k then (k, op) :: rest else (k', op') :: setKey rest k op

/-- The `MutationRegistry`: a map from type name to operator. -/
structure MutationRegistry where
  operators : List (String × TypedMutationOperator)

/-- Embeds `MutationRegistry.register`: stores the operator under `operator.type.name`. -/
def MutationRegistry.register (reg : MutationRegistry) (op : TypedMutationOperator) :
    MutationRegistry :=
  { operators := setKey reg.operators op.type.name op }

/-- Embeds `MutationRegistry.getOperator`: exact lookup by the descriptor's name. -/
def MutationRegistry.getOperator (reg : MutationRegistry) (type : BaseType) :
    Option TypedMutationOperator :=
  reg.operators.lookup type.name

/-- Embeds `MutationRegistry.mutate`: use the registered operator when present and
applicable, otherwise fall back to the singleton `[value]`. -/
def MutationRegistry.mutate (reg : MutationRegistry) (value : Value) (type : BaseType) :
    Except String (List Value) :=
  match reg.getOperator type with
  | some op => if op.isApplicable value then op.mutate value else Except.ok [value]
  | none => Except.ok [value]

/-- A registry with no operators (the `includeDefaults = false` constructor). -/
def emptyRegistry : MutationRegistry := ⟨[]⟩

/-- Embeds `registerDefaults`: the eight built-ins, registered in source order. -/
def registerDefaults (reg : MutationRegistry) : MutationRegistry :=
  [ AddressMutator, BlockTagMutator, BlockNumberMutator, HashMutator
  , BooleanMutator, NumberMutator, StringMutator, ArrayMutator
  ].foldl MutationRegistry.register reg

/-- Embeds `new MutationRegistry(includeDefaults)`. -/
def mkRegistry (includeDefaults : Bool) : MutationRegistry :=
  if includeDefaults then registerDefaults emptyRegistry else emptyRegistry

/-- Embeds `createDefaultRegistry()`. -/
def createDefaultRegistry : MutationRegistry := mkRegistry true

/-- An asynchronous validator invocation: its eventual outcome (a boolean
resolution or a rejection carrying an error message) and the instant at
which its promise settles, `none` meaning it never settles. -/
structure ValidatorRun where
  outcome : Except String Bool
  settleTime : Option Nat

/-- A validator as the runner consumes it: one `ValidatorRun` per argument. -/
def Validator := Value → ValidatorRun

/-- Embeds `Promise.race([validator(mutation), timeoutPromise])`: the validator's
outcome if it settles strictly before the timer fires at `tmo`, otherwise
the `"Timeout"` rejection of the timer promise. -/
def raceOutcome (tmo : Nat) (run : ValidatorRun) : Except String Bool :=
  match run.settleTime with
  | some t => if t < tmo then run.outcome else Except.error "Timeout"
  | none => Except.error "Timeout"

/-- The `MutationResult` record of src/src/testing/mutation/base.ts. -/
structure MutationResult where
  value : Value
  caught : Bool
  error : Option String

/-- The `summary` object of `MutationTestResult`. -/
structure MutationSummary where
  total : Nat
  caught : Nat
  uncaught : Nat
  errors : Nat

/-- The `MutationTestResult` record. -/
structure MutationTestResult where
  originalValue : Value
  mutations : List MutationResult
  summary : MutationSummary

/-- The `MutationTestOptions` record; an absent field is `none`. -/
structure MutationTestOptions where
  timeout : Option Nat := none
  verbose : Option Bool := none

/-- The effective per-mutation timeout `options.timeout || 5000`: an absent
timeout and the falsy `0` both yield the 5000 default. -/
def effTimeout (options : MutationTestOptions) : Nat :=
  match options.timeout with
  | some t => if t = 0 then 5000 else t
  | none => 5000

/-- The loop body shared by `test` and `testWithOperator`: race the
validator against the timeout and classify.  A resolution `isValid` yields
`caught = !isValid` with no error; a rejection (validator throw or timeout)
yields `caught = true` with the error recorded. -/
def classifyMutation (tmo : Nat) (validator : Validator) (mutation : Value) :
    MutationResult :=
  match raceOutcome tmo (validator mutation) with
  | Except.ok isValid => { value := mutation, caught := !isValid, error := none }
  | Except.error e => { value := mutation, caught := true, error := some e }

/-- The whole per-mutation loop: one `MutationResult` per mutation, in order. -/
def runMutations (tmo : Nat) (validator : Validator) (mutations : List Value) :
    List MutationResult :=
  mutations.map (classifyMutation tmo validator)

/-- The summary literal built at the end of `test`/`testWithOperator`:
a pure fold (filters) over the results list. -/
def mkSummary (results : List MutationResult) : MutationSummary :=
  { total := results.length
  , caught := (results.filter (fun r => r.caught)).length
  , uncaught := (results.filter (fun r => !r.caught)).length
  , errors := (results.filter (fun r => r.error.isSome)).length }

/-- The `MutationTestRunner` class: a wrapper around its registry. -/
structure MutationTestRunner where
  registry : MutationRegistry

/-- Embeds `MutationTestRunner.test`: resolve the mutation list through the
registry (a throw from a registered operator's `mutate` propagates), then
classify each mutation and aggregate. -/
def MutationTestRunner.test (runner : MutationTestRunner) (value : Value)
    (type : BaseType) (validator : Validator) (options : MutationTestOptions) :
    Except String MutationTestResult := do
  let mutations ← runner.registry.mutate value type
  let results := runMutations (effTimeout options) validator mutations
  pure { originalValue := value, mutations := results, summary := mkSummary results }

/-- Embeds `MutationTestRunner.testWithOperator`: fail fast when the operator is
inapplicable, otherwise run the identical pipeline on `operator.mutate`
(whose own throw propagates, being outside the try block). -/
def MutationTestRunner.testWithOperator (_runner : MutationTestRunner) (value : Value)
    (op : TypedMutationOperator) (validator : Validator) (options : MutationTestOptions) :
    Except String MutationTestResult :=
  if !op.isApplicable value then
    Except.error ("Operator " ++ op.name ++ " is not applicable to value " ++ valueToString value)
  else do
    let mutations ← op.mutate value
    let results := runMutations (effTimeout options) validator mutations
    pure { originalValue := value, mutations := results, summary := mkSummary results }

/-- One entry of the `tests` array passed to `testAll`. -/
structure TestEntry where
  name : String
  value : Value
  type : BaseType
  validator : Validator

/-- Embeds `MutationTestRunner.testAll`: run `test` once per entry, sequentially,
collecting `name ↦ result`.  The loop has no try/catch, so a rejection from
`test` (a registered operator's `mutate` throwing) aborts the remaining
entries and rejects the whole call. -/
def MutationTestRunner.testAll (runner : MutationTestRunner) (tests : List TestEntry)
    (options : MutationTestOptions) : Except String (List (String × MutationTestResult)) :=
  match tests with
  | [] => Except.ok []
  | t :: rest => do
      let r ← runner.test t.value t.type t.validator options
      let rs ← runner.testAll rest options
      pure ((t.name, r) :: rs)

/-- Embeds `createDefaultRunner()`. -/
def createDefaultRunner : MutationTestRunner := ⟨createDefaultRegistry⟩

/-! Observation helpers and concrete fixtures used by the theorems below. -/

/-- Whether a registry `mutate` call succeeded. -/
def exceptIsOk : Except String (List Value) → Bool
  | Except.ok _ => true
  | Except.error _ => false

/-- Number of mutations a registry `mutate` call produced (0 on a throw). -/
def mutationCount : Except String (List Value) → Nat
  | Except.ok l => l.length
  | Except.error _ => 0

/-- The error surfaced by a `test`/`testWithOperator` call, if any. -/
def errOf : Except String MutationTestResult → Option String
  | Except.ok _ => none
  | Except.error e => some e

/-- The error surfaced by an operator or registry `mutate` call, if any. -/
def errOfList : Except String (List Value) → Option String
  | Except.ok _ => none
  | Except.error e => some e

/-- The entry names reported by a `testAll` call (none on a rejection). -/
def reportedNames : Except String (List (String × MutationTestResult)) → Option (List String)
  | Except.ok rs => some (rs.map Prod.fst)
  | Except.error _ => none

/-- The type descriptors of the eight built-in operators. -/
def builtinTypes : List BaseType :=
  [TAddress, TBlockTag, TBlockNumber, THex32, boolType, numberType, stringType, arrayType]

/-- A validator that instantly accepts every value. -/
def okValidator : Validator := fun _ => ⟨Except.ok true, some 0⟩

/-- A validator that instantly rejects every value. -/
def rejValidator : Validator := fun _ => ⟨Except.ok false, some 0⟩

/-- A runner over a registry with no operators. -/
def emptyRunner : MutationTestRunner := ⟨emptyRegistry⟩

/-- A caller-registered operator (registered under the `Boolean` type name)
whose `mutate` always throws — legal for a JS function, though it violates
the operator contract of the design. -/
def throwingOperator : TypedMutationOperator :=
  { name := "ThrowingMutator"
  , type := boolType
  , isApplicable := fun _ => true
  , mutate := fun _ => Except.error "boom" }

/-- A runner whose registry contains only `throwingOperator`. -/
def badRunner : MutationTestRunner := ⟨emptyRegistry.register throwingOperator⟩

/-- A `testAll` entry that hits `throwingOperator` when run on `badRunner`. -/
def entryA : TestEntry := ⟨"a", Value.bool true, boolType, okValidator⟩

/-- A `testAll` entry of a type with no registered operator on `badRunner`,
so it succeeds on its own via the no-op fallback. -/
def entryB : TestEntry := ⟨"b", Value.num 1, numberType, okValidator⟩

/-- The concrete result of `emptyRunner.test (bool true) boolType rejValidator {}`:
the no-op fallback mutation, rejected, hence caught with no error. -/
def sampleResult : MutationTestResult :=
  { originalValue := Value.bool true
  , mutations := [{ value := Value.bool true, caught := true, error := none }]
  , summary := { total := 1, caught := 1, uncaught := 0, errors := 0 } }

/-! Helper lemmas shared by several claim theorems. -/

theorem length_filter_add_length_filter_not {α : Type} (p : α → Bool) (l : List α) :
    (l.filter p).length + (l.filter (fun a => !(p a))).length = l.length := by
  induction l with
  | nil => rfl
  | cons x xs ih => cases h : p x <;> simp [List.filter_cons, h] <;> omega

theorem length_filter_le_of_imp {α : Type} (p q : α → Bool) (l : List α)
    (h : ∀ a ∈ l, p a = true → q a = true) :
    (l.filter p).length ≤ (l.filter q).length := by
  induction l with
  | nil => exact Nat.le_refl 0
  | cons x xs ih =>
      have hx := h x (List.mem_cons_self x xs)
      have ih' := ih (fun a ha => h a (List.mem_cons_of_mem x ha))
      cases hp : p x
      · cases hq : q x <;> simp [List.filter_cons, hp, hq] <;> omega
      · simp [List.filter_cons, hp, hx hp] ; omega

theorem classify_error_implies_caught (tmo : Nat) (validator : Validator) (m : Value) :
    (classifyMutation tmo validator m).error.isSome = true →
    (classifyMutation tmo validator m).caught = true := by
  unfold classifyMutation
  cases raceOutcome tmo (validator m) <;> simp

theorem test_ok_shape (runner : MutationTestRunner) (value : Value) (type : BaseType)
    (validator : Validator) (options : MutationTestOptions) (r : MutationTestResult)
    (h : runner.test value type validator options = Except.ok r) :
    ∃ ms, runner.registry.mutate value type = Except.ok ms ∧
      r = { originalValue := value
          , mutations := runMutations (effTimeout options) validator ms
          , summary := mkSummary (runMutations (effTimeout options) validator ms) } := by
  unfold MutationTestRunner.test at h
  cases hm : runner.registry.mutate value type with
  | error e => rw [hm] at h; exact absurd h (by simp [Bind.bind, Except.bind])
  | ok ms =>
      rw [hm] at h
      simp only [Bind.bind, Except.bind, pure, Except.pure, Except.ok.injEq] at h
      exact ⟨ms, rfl, h.symm⟩

/-- C1: per-mutation classification in `test` and `testWithOperator`: a
validator resolution `true` gives `caught = false`, a resolution `false`
gives `caught = true` with no error, and a validator throw or a timeout
gives `caught = true` with the error recorded; a validator failure never
propagates out of the call (whenever the mutation list itself is produced
without a throw, the call returns `ok`, for every validator). -/
theorem per_mutation_classification (tmo : Nat) (validator : Validator) (m : Value) :
    (raceOutcome tmo (validator m) = Except.ok true →
      classifyMutation tmo validator m = { value := m, caught := false, error := none }) ∧
    (raceOutcome tmo (validator m) = Except.ok false →
      classifyMutation tmo validator m = { value := m, caught := true, error := none }) ∧
    (∀ e, raceOutcome tmo (validator m) = Except.error e →
      classifyMutation tmo validator m = { value := m, caught := true, error := some e }) ∧
    (∀ (runner : MutationTestRunner) value type options ms,
      runner.registry.mutate value type = Except.ok ms →
      runner.test value type validator options =
        Except.ok { originalValue := value
                  , mutations := runMutations (effTimeout options) validator ms
                  , summary := mkSummary (runMutations (effTimeout options) validator ms) }) ∧
    (∀ (runner : MutationTestRunner) value (op : TypedMutationOperator) options ms,
      op.isApplicable value = true → op.mutate value = Except.ok ms →
      MutationTestRunner.testWithOperator runner value op validator options =
        Except.ok { originalValue := value
                  , mutations := runMutations (effTimeout options) validator ms
                  , summary := mkSummary (runMutations (effTimeout options) validator ms) }) := by
  refine ⟨?_, ?_, ?_, ?_, ?_⟩
  · intro h; unfold classifyMutation; rw [h]; rfl
  · intro h; unfold classifyMutation; rw [h]; rfl
  · intro e h; unfold classifyMutation; rw [h]
  · intro runner value type options ms hm
    unfold MutationTestRunner.test
    rw [hm]
    rfl
  · intro runner value op options ms happ hm
    unfold MutationTestRunner.testWithOperator
    rw [happ, hm]
    rfl

/-- C1 witness: with the instantly rejecting validator the fallback
mutation is classified as caught with no error. -/
theorem per_mutation_classification_witness :
    classifyMutation 5000 rejValidator (Value.bool true) =
      { value := Value.bool true, caught := true, error := none } :=
  (per_mutation_classification 5000 rejValidator (Value.bool true)).2.1 rfl

/-- C3: `MutationRegistry.mutate` returns `operator.mutate value` when an
operator is registered under the descriptor's name and applicable, and
otherwise (lookup miss, or registered operator inapplicable) returns the
singleton `ok [value]` — never an error in the fallback cases. -/
theorem registry_mutate_spec (reg : MutationRegistry) (v : Value) (d : BaseType) :
    (∀ op, reg.getOperator d = some op →
      (op.isApplicable v = true → reg.mutate v d = op.mutate v) ∧
      (op.isApplicable v = false → reg.mutate v d = Except.ok [v])) ∧
    (reg.getOperator d = none → reg.mutate v d = Except.ok [v]) := by
  unfold MutationRegistry.mutate
  constructor
  · intro op hop
    rw [hop]
    refine ⟨fun h => ?_, fun h => ?_⟩ <;>
      · show (if op.isApplicable v = true then op.mutate v else Except.ok [v]) = _
        rw [h]
        simp
  · intro hop
    rw [hop]

/-- C3 witness: on the default registry the boolean seed dispatches to
`BooleanMutator`, and on the empty registry it falls back to the singleton. -/
theorem registry_mutate_spec_witness :
    createDefaultRegistry.mutate (Value.bool true) boolType =
      BooleanMutator.mutate (Value.bool true) ∧
    emptyRegistry.mutate (Value.bool true) boolType = Except.ok [Value.bool true] :=
  ⟨((registry_mutate_spec createDefaultRegistry (Value.bool true) boolType).1
      BooleanMutator rfl).1 rfl,
   (registry_mutate_spec emptyRegistry (Value.bool true) boolType).2 rfl⟩

/-- C8: `ArrayMutator.mutate` on the empty array returns the singleton list
whose only element is the one-element array holding the null placeholder. -/
theorem array_mutator_empty_seed :
    ArrayMutator.mutate (Value.arr []) = Except.ok [Value.arr [Value.null]] := rfl

/-- C10: the effective per-mutation timeout is `options.timeout || 5000`:
an absent timeout and an explicit `0` both yield 5000 (so `timeout = 0`
behaves exactly like `timeout = 5000` in `test` and `testWithOperator`),
while any positive value is used as given. -/
theorem effective_timeout_or_default (t : Nat) (ht : 0 < t) :
    effTimeout {} = 5000 ∧
    effTimeout { timeout := some 0 } = 5000 ∧
    effTimeout { timeout := some t } = t ∧
    (∀ (runner : MutationTestRunner) value type validator,
      runner.test value type validator { timeout := some 0 } =
        runner.test value type validator { timeout := some 5000 }) ∧
    (∀ (runner : MutationTestRunner) value op validator,
      MutationTestRunner.testWithOperator runner value op validator { timeout := some 0 } =
        MutationTestRunner.testWithOperator runner value op validator { timeout := some 5000 }) := by
  refine ⟨rfl, rfl, ?_, fun _ _ _ _ => rfl, fun _ _ _ _ => rfl⟩
  simp only [effTimeout, if_neg (Nat.pos_iff_ne_zero.mp ht)]

/-- C10 witness: a positive timeout (7) is used as given, and 0 defaults. -/
theorem effective_timeout_or_default_witness :
    effTimeout {} = 5000 ∧
    effTimeout { timeout := some 0 } = 5000 ∧
    effTimeout { timeout := some 7 } = 7 ∧
    (∀ (runner : MutationTestRunner) value type validator,
      runner.test value type validator { timeout := some 0 } =
        runner.test value type validator { timeout := some 5000 }) ∧
    (∀ (runner : MutationTestRunner) value op validator,
      MutationTestRunner.testWithOperator runner value op validator { timeout := some 0 } =
        MutationTestRunner.testWithOperator runner value op validator { timeout := some 5000 }) :=
  effective_timeout_or_default 7 (by decide)

theorem testWithOperator_ok_shape (runner : MutationTestRunner) (value : Value)
    (op : TypedMutationOperator) (validator : Validator) (options : MutationTestOptions)
    (r : MutationTestResult)
    (h : MutationTestRunner.testWithOperator runner value op validator options = Except.ok r) :
    ∃ ms, op.mutate value = Except.ok ms ∧
      r = { originalValue := value
          , mutations := runMutations (effTimeout options) validator ms
          , summary := mkSummary (runMutations (effTimeout options) validator ms) } := by
  unfold MutationTestRunner.testWithOperator at h
  cases happ : op.isApplicable value with
  | false => rw [happ] at h; simp at h
  | true =>
      rw [happ] at h
      simp only [Bool.not_true, Bool.false_eq_true, if_false] at h
      cases hm : op.mutate value with
      | error e => rw [hm] at h; exact absurd h (by simp [Bind.bind, Except.bind])
      | ok ms =>
          rw [hm] at h
          simp only [Bind.bind, Except.bind, pure, Except.pure, Except.ok.injEq] at h
          exact ⟨ms, rfl, h.symm⟩

theorem testAll_mem_shape (runner : MutationTestRunner) (tests : List TestEntry)
    (options : MutationTestOptions) (rs : List (String × MutationTestResult))
    (h : runner.testAll tests options = Except.ok rs) (name : String) (r : MutationTestResult)
    (hmem : (name, r) ∈ rs) :
    ∃ t : TestEntry, runner.test t.value t.type t.validator options = Except.ok r := by
  induction tests generalizing rs with
  | nil =>
      unfold MutationTestRunner.testAll at h
      cases h
      cases hmem
  | cons t rest ih =>
      unfold MutationTestRunner.testAll at h
      cases h1 : runner.test t.value t.type t.validator options with
      | error e => rw [h1] at h; exact absurd h (by simp [Bind.bind, Except.bind])
      | ok r1 =>
          rw [h1] at h
          cases h2 : runner.testAll rest options with
          | error e => rw [h2] at h; exact absurd h (by simp [Bind.bind, Except.bind])
          | ok rs2 =>
              rw [h2] at h
              simp only [Bind.bind, Except.bind, pure, Except.pure, Except.ok.injEq] at h
              subst h
              rcases List.mem_cons.mp hmem with heq | hmem2
              · have : r1 = r := congrArg Prod.snd heq.symm
                exact ⟨t, this ▸ h1⟩
              · exact ih rs2 h2 hmem2

theorem mkSummary_fold_invariants (tmo : Nat) (validator : Validator) (ms : List Value) :
    (mkSummary (runMutations tmo validator ms)).total = (runMutations tmo validator ms).length ∧
    (mkSummary (runMutations tmo validator ms)).caught +
      (mkSummary (runMutations tmo validator ms)).uncaught =
      (mkSummary (runMutations tmo validator ms)).total ∧
    (mkSummary (runMutations tmo validator ms)).errors ≤
      (mkSummary (runMutations tmo validator ms)).caught := by
  refine ⟨rfl, ?_, ?_⟩
  · exact length_filter_add_length_filter_not _ _
  · apply length_filter_le_of_imp
    intro x hx herr
    rcases List.mem_map.mp hx with ⟨m, _, rfl⟩
    exact classify_error_implies_caught tmo validator m herr

/-- C2: every result returned by `test`, `testWithOperator`, or reported by
`testAll` has a summary that is a pure fold over its mutation list:
`total = length mutations`, `caught + uncaught = total`, and
`errors ≤ caught` (an errored mutation is always also caught). -/
theorem summary_is_pure_fold (r : MutationTestResult)
    (h : (∃ runner value type validator options,
            MutationTestRunner.test runner value type validator options = Except.ok r) ∨
         (∃ runner value op validator options,
            MutationTestRunner.testWithOperator runner value op validator options = Except.ok r) ∨
         (∃ runner tests options rs name,
            MutationTestRunner.testAll runner tests options = Except.ok rs ∧ (name, r) ∈ rs)) :
    r.summary.total = r.mutations.length ∧
    r.summary.caught + r.summary.uncaught = r.summary.total ∧
    r.summary.errors ≤ r.summary.caught := by
  have main : ∀ (value : Value) (tmo : Nat) (validator : Validator) (ms : List Value),
      r = { originalValue := value
          , mutations := runMutations tmo validator ms
          , summary := mkSummary (runMutations tmo validator ms) } →
      r.summary.total = r.mutations.length ∧
      r.summary.caught + r.summary.uncaught = r.summary.total ∧
      r.summary.errors ≤ r.summary.caught := by
    rintro value tmo validator ms rfl
    exact mkSummary_fold_invariants tmo validator ms
  rcases h with ⟨runner, value, type, validator, options, h⟩ |
    ⟨runner, value, op, validator, options, h⟩ |
    ⟨runner, tests, options, rs, name, hall, hmem⟩
  · rcases test_ok_shape _ _ _ _ _ _ h with ⟨ms, _, hr⟩
    exact main _ _ _ _ hr
  · rcases testWithOperator_ok_shape _ _ _ _ _ _ h with ⟨ms, _, hr⟩
    exact main _ _ _ _ hr
  · rcases testAll_mem_shape _ _ _ _ hall name r hmem with ⟨t, ht⟩
    rcases test_ok_shape _ _ _ _ _ _ ht with ⟨ms, _, hr⟩
    exact main _ _ _ _ hr

/-- C2 witness: the summary invariants hold on the concrete result of a
run of `test` on the empty-registry runner. -/
theorem summary_is_pure_fold_witness :
    sampleResult.summary.total = sampleResult.mutations.length ∧
    sampleResult.summary.caught + sampleResult.summary.uncaught = sampleResult.summary.total ∧
    sampleResult.summary.errors ≤ sampleResult.summary.caught :=
  summary_is_pure_fold sampleResult
    (Or.inl ⟨emptyRunner, Value.bool true, boolType, rejValidator, {}, rfl⟩)

/-- C9: when the operator registered under `op.type.name` is `op` itself
and it is applicable to the seed, `test` and `testWithOperator` return the
same result (same ordered mutation results and summary). -/
theorem test_agrees_with_testWithOperator (runner : MutationTestRunner)
    (op : TypedMutationOperator) (v : Value) (validator : Validator)
    (options : MutationTestOptions)
    (hreg : runner.registry.getOperator op.type = some op)
    (happ : op.isApplicable v = true) :
    runner.test v op.type validator options =
      MutationTestRunner.testWithOperator runner v op validator options := by
  unfold MutationTestRunner.test MutationTestRunner.testWithOperator MutationRegistry.mutate
  rw [hreg, happ]
  simp [happ]

/-- C9 witness: on the default runner, testing a boolean seed by type
agrees with testing it directly with `BooleanMutator`. -/
theorem test_agrees_with_testWithOperator_witness :
    createDefaultRunner.test (Value.bool true) BooleanMutator.type okValidator {} =
      MutationTestRunner.testWithOperator createDefaultRunner (Value.bool true)
        BooleanMutator okValidator {} :=
  test_agrees_with_testWithOperator createDefaultRunner BooleanMutator (Value.bool true)
    okValidator {} rfl rfl

/-- C7: for each of the five block tags, `BlockTagMutator.mutate` returns
exactly the other four enum members — set-equal to the five-tag set minus
the seed, and never containing the seed. -/
theorem blockTag_mutate_complement (t : String) (ht : t ∈ allTags) :
    BlockTagMutator.mutate (Value.str t) =
      Except.ok ((blockTagMutateList (Value.str t)).map Value.str) ∧
    (blockTagMutateList (Value.str t)).toFinset = allTags.toFinset \ {t} ∧
    t ∉ blockTagMutateList (Value.str t) := by
  have ht' : t = "latest" ∨ t = "earliest" ∨ t = "pending" ∨ t = "safe" ∨ t = "finalized" := by
    simpa [allTags] using ht
  rcases ht' with rfl | rfl | rfl | rfl | rfl <;>
    exact ⟨rfl, by decide, by decide⟩

/-- C7 witness: the `latest` seed yields exactly the other four tags. -/
theorem blockTag_mutate_complement_witness :
    BlockTagMutator.mutate (Value.str "latest") =
      Except.ok ((blockTagMutateList (Value.str "latest")).map Value.str) ∧
    (blockTagMutateList (Value.str "latest")).toFinset = allTags.toFinset \ {"latest"} ∧
    "latest" ∉ blockTagMutateList (Value.str "latest") :=
  blockTag_mutate_complement "latest" (by decide)

theorem test_ok_of_mutate_ok (runner : MutationTestRunner) (value : Value) (type : BaseType)
    (validator : Validator) (options : MutationTestOptions) (ms : List Value)
    (hm : runner.registry.mutate value type = Except.ok ms) :
    runner.test value type validator options =
      Except.ok { originalValue := value
                , mutations := runMutations (effTimeout options) validator ms
                , summary := mkSummary (runMutations (effTimeout options) validator ms) } := by
  unfold MutationTestRunner.test
  rw [hm]
  rfl

/-- C4 counterexample: on a registry holding an operator whose `mutate`
throws, the first entry's setup error rejects the whole `testAll` call, so
the second entry — which succeeds when run on its own — is never reported. -/
theorem testAll_blocked_by_entry_error :
    MutationTestRunner.testAll badRunner [entryA, entryB] {} = Except.error "boom" ∧
    MutationTestRunner.testAll badRunner [entryB] {} =
      Except.ok [("b", { originalValue := Value.num 1
                       , mutations := [{ value := Value.num 1, caught := false, error := none }]
                       , summary := { total := 1, caught := 0, uncaught := 1, errors := 0 } })] :=
  ⟨rfl, rfl⟩

/-- C4 amended: entries are processed sequentially and validator failures
within an entry never block later entries (the claim holds for every
validator); but it is only when no entry's registry `mutate` throws that
every entry is guaranteed to be executed and reported, since a throw from
a registered operator's `mutate` propagates out of `testAll`. -/
theorem testAll_reports_all_when_mutate_ok (runner : MutationTestRunner)
    (tests : List TestEntry) (options : MutationTestOptions)
    (h : ∀ t ∈ tests, ∃ ms, runner.registry.mutate t.value t.type = Except.ok ms) :
    reportedNames (runner.testAll tests options) = some (tests.map TestEntry.name) := by
  induction tests with
  | nil => rfl
  | cons t rest ih =>
      obtain ⟨ms, hms⟩ := h t (List.mem_cons_self t rest)
      have ih' := ih (fun t' ht' => h t' (List.mem_cons_of_mem t ht'))
      unfold MutationTestRunner.testAll
      rw [test_ok_of_mutate_ok _ _ _ _ _ _ hms]
      cases hall : runner.testAll rest options with
      | error e => rw [hall] at ih'; cases ih'
      | ok rs =>
          rw [hall] at ih'
          simp only [reportedNames, Option.some.injEq] at ih'
          simp [Bind.bind, Except.bind, pure, Except.pure, reportedNames, ih']

/-- C4 witness: on the empty registry (where `mutate` always succeeds via
the no-op fallback) both entries are executed and reported in order. -/
theorem testAll_reports_all_witness :
    reportedNames (MutationTestRunner.testAll emptyRunner [entryA, entryB] {}) =
      some ["a", "b"] :=
  testAll_reports_all_when_mutate_ok emptyRunner [entryA, entryB] {}
    (fun t _ => ⟨[t.value], rfl⟩)

/-- C5 counterexample: an operator whose own `mutate` throws surfaces that
exception from `testWithOperator` even though `isApplicable(seed)` holds —
and `test` surfaces the same exception through the registry — so operator
inapplicability is not the only condition under which
`test`/`testWithOperator` surface an unrecovered exception. -/
theorem testWithOperator_surfaces_operator_throw :
    throwingOperator.isApplicable (Value.bool true) = true ∧
    MutationTestRunner.testWithOperator emptyRunner (Value.bool true) throwingOperator
      okValidator {} = Except.error "boom" ∧
    MutationTestRunner.test badRunner (Value.bool true) boolType okValidator {} =
      Except.error "boom" :=
  ⟨rfl, rfl, rfl⟩

/-- C5 amended: `testWithOperator` fails fast — with an error independent
of the validator, so the validator is never consulted — exactly when
`operator.isApplicable(seed)` is false; apart from that, the only
exceptions `test`/`testWithOperator` surface are those thrown by the
operator's own `mutate` (for `test`, by the registry's `mutate`); validator
failures never surface. -/
theorem testWithOperator_fail_fast (runner : MutationTestRunner) (v : Value)
    (op : TypedMutationOperator) (options : MutationTestOptions) :
    (op.isApplicable v = false → ∀ validator,
      MutationTestRunner.testWithOperator runner v op validator options =
        Except.error ("Operator " ++ op.name ++ " is not applicable to value " ++
          valueToString v)) ∧
    (∀ validator,
      errOf (MutationTestRunner.testWithOperator runner v op validator options) =
        if op.isApplicable v then errOfList (op.mutate v)
        else some ("Operator " ++ op.name ++ " is not applicable to value " ++
          valueToString v)) ∧
    (∀ type validator,
      errOf (runner.test v type validator options) =
        errOfList (runner.registry.mutate v type)) := by
  refine ⟨?_, ?_, ?_⟩
  · intro h validator
    unfold MutationTestRunner.testWithOperator
    rw [h]
    rfl
  · intro validator
    unfold MutationTestRunner.testWithOperator
    cases happ : op.isApplicable v
    · simp [errOf]
    · simp only [Bool.not_true, Bool.false_eq_true, if_false, if_true]
      cases hm : op.mutate v <;>
        simp [errOf, errOfList, Bind.bind, Except.bind, pure, Except.pure]
  · intro type validator
    unfold MutationTestRunner.test
    cases hm : runner.registry.mutate v type <;>
      simp [errOf, errOfList, Bind.bind, Except.bind, pure, Except.pure]

/-- C5 witness: `BooleanMutator` is inapplicable to the number seed `1`,
so `testWithOperator` rejects with the interpolated message. -/
theorem testWithOperator_fail_fast_witness :
    MutationTestRunner.testWithOperator emptyRunner (Value.num 1) BooleanMutator
      okValidator {} =
      Except.error "Operator BooleanMutator is not applicable to value 1" :=
  (testWithOperator_fail_fast emptyRunner (Value.num 1) BooleanMutator {}).1 rfl okValidator

/-- Dispatch lemma: on the default registry, a lookup hit with an
applicable operator reduces `mutate` to the operator's `mutate`. -/
theorem default_mutate_dispatch (d : BaseType) (op : TypedMutationOperator) (v : Value)
    (hlook : createDefaultRegistry.getOperator d = some op)
    (happ : op.isApplicable v = true) :
    createDefaultRegistry.mutate v d = op.mutate v := by
  unfold MutationRegistry.mutate
  rw [hlook]
  show (if op.isApplicable v = true then op.mutate v else Except.ok [v]) = _
  rw [happ]
  simp

theorem blockTagMutateList_ne_nil (v : Value) : blockTagMutateList v ≠ [] := by
  unfold blockTagMutateList
  cases v with
  | str s =>
      by_cases h : "latest" = s
      · subst h; decide
      · have hne : valueEq (Value.str "latest") (Value.str s) = false := by
          simp [valueEq]
          exact h
        simp [allTags, List.filter, hne]
  | int n => simp [allTags, List.filter, valueEq]
  | num n => simp [allTags, List.filter, valueEq]
  | bool b => simp [allTags, List.filter, valueEq]
  | arr l => simp [allTags, List.filter, valueEq]
  | null => simp [allTags, List.filter, valueEq]

/-- C6: for every valid seed of any of the eight built-in types, the
default registry's `mutate` succeeds and returns at least one mutation —
including degenerate seeds such as the empty string and the empty array. -/
theorem builtin_mutate_nonempty (d : BaseType) (v : Value)
    (hd : d ∈ builtinTypes) (hv : d.isValid v = true) :
    exceptIsOk (createDefaultRegistry.mutate v d) = true ∧
    0 < mutationCount (createDefaultRegistry.mutate v d) := by
  simp only [builtinTypes, List.mem_cons, List.not_mem_nil, or_false] at hd
  rcases hd with rfl | rfl | rfl | rfl | rfl | rfl | rfl | rfl
  · -- Address
    cases v with
    | str s =>
        rw [default_mutate_dispatch TAddress AddressMutator (Value.str s) rfl
          (show AddressMutator.isApplicable (Value.str s) = true from hv)]
        exact ⟨rfl, by simp [AddressMutator, addressMutateList, mutationCount]⟩
    | int n => simp [TAddress] at hv
    | num n => simp [TAddress] at hv
    | bool b => simp [TAddress] at hv
    | arr l => simp [TAddress] at hv
    | null => simp [TAddress] at hv
  · -- BlockTag
    rw [default_mutate_dispatch TBlockTag BlockTagMutator _ rfl hv]
    refine ⟨rfl, ?_⟩
    have hne := blockTagMutateList_ne_nil v
    simp only [BlockTagMutator, mutationCount]
    rw [List.length_map]
    exact List.length_pos.mpr hne
  · -- BlockNumber
    cases v with
    | int n =>
        rw [default_mutate_dispatch TBlockNumber BlockNumberMutator (Value.int n) rfl
          (show BlockNumberMutator.isApplicable (Value.int n) = true from hv)]
        exact ⟨rfl, by simp [BlockNumberMutator, blockNumberMutateList, mutationCount]⟩
    | str s => simp [TBlockNumber] at hv
    | num n => simp [TBlockNumber] at hv
    | bool b => simp [TBlockNumber] at hv
    | arr l => simp [TBlockNumber] at hv
    | null => simp [TBlockNumber] at hv
  · -- Hex32
    cases v with
    | str s =>
        rw [default_mutate_dispatch THex32 HashMutator (Value.str s) rfl
          (show HashMutator.isApplicable (Value.str s) = true from hv)]
        exact ⟨rfl, by simp [HashMutator, hashMutateList, mutationCount]⟩
    | int n => simp [THex32] at hv
    | num n => simp [THex32] at hv
    | bool b => simp [THex32] at hv
    | arr l => simp [THex32] at hv
    | null => simp [THex32] at hv
  · -- Boolean
    rw [default_mutate_dispatch boolType BooleanMutator _ rfl hv]
    exact ⟨rfl, by simp [BooleanMutator, mutationCount]⟩
  · -- Number
    cases v with
    | num n =>
        rw [default_mutate_dispatch numberType NumberMutator (Value.num n) rfl
          (show NumberMutator.isApplicable (Value.num n) = true from hv)]
        exact ⟨rfl, by simp [NumberMutator, numberMutateList, mutationCount]⟩
    | str s => simp [numberType] at hv
    | int n => simp [numberType] at hv
    | bool b => simp [numberType] at hv
    | arr l => simp [numberType] at hv
    | null => simp [numberType] at hv
  · -- String
    cases v with
    | str s =>
        rw [default_mutate_dispatch stringType StringMutator (Value.str s) rfl
          (show StringMutator.isApplicable (Value.str s) = true from hv)]
        exact ⟨rfl, by simp [StringMutator, stringMutateList, mutationCount]⟩
    | int n => simp [stringType] at hv
    | num n => simp [stringType] at hv
    | bool b => simp [stringType] at hv
    | arr l => simp [stringType] at hv
    | null => simp [stringType] at hv
  · -- Array
    cases v with
    | arr l =>
        rw [default_mutate_dispatch arrayType ArrayMutator (Value.arr l) rfl
          (show ArrayMutator.isApplicable (Value.arr l) = true from hv)]
        refine ⟨rfl, ?_⟩
        cases l <;> simp [ArrayMutator, arrayMutateList, mutationCount]
    | str s => simp [arrayType] at hv
    | int n => simp [arrayType] at hv
    | num n => simp [arrayType] at hv
    | bool b => simp [arrayType] at hv
    | null => simp [arrayType] at hv

/-- C6 witness: the degenerate seeds — the empty string and the empty
array — both produce a non-empty mutation list on the default registry. -/
theorem builtin_mutate_nonempty_witness :
    (exceptIsOk (createDefaultRegistry.mutate (Value.str "") stringType) = true ∧
      0 < mutationCount (createDefaultRegistry.mutate (Value.str "") stringType)) ∧
    (exceptIsOk (createDefaultRegistry.mutate (Value.arr []) arrayType) = true ∧
      0 < mutationCount (createDefaultRegistry.mutate (Value.arr []) arrayType)) :=
  ⟨builtin_mutate_nonempty stringType (Value.str "") (by simp [builtinTypes]) rfl,
   builtin_mutate_nonempty arrayType (Value.arr []) (by simp [builtinTypes]) rfl⟩
